import Mathlib

/-!
Shallow embedding of the pdfcore crate (src/crates/pdfcore/src/lib.rs).

The effectful boundary of the crate (filesystem existence checks, environment
variables, PATH probing via the which crate, process spawning, and the lopdf
parser) is modelled by an explicit environment record threaded through the
translated functions.  Machine integers are modelled as Nat or Int; byte
buffers as lists of Nat; paths and OS strings as Lean strings.
-/

set_option autoImplicit false

namespace Pdfcore

/-! ### Lossy UTF-8 decoding

Model of Rust String.from_utf8_lossy: invalid byte sequences are replaced by
U+FFFD following the maximal-subpart substitution the Rust standard library
implements (each maximal valid prefix of an encoded sequence that cannot be
completed yields exactly one replacement character).
-/

/-- The Unicode replacement character U+FFFD. -/
def replacementChar : Char := Char.ofNat 0xFFFD

/-- A UTF-8 continuation byte is in the range 0x80 to 0xBF. -/
def isContByte (b : Nat) : Bool := 0x80 ≤ b && b ≤ 0xBF

/-- Admissible range for the first continuation byte, which depends on the
lead byte (this encodes the overlong, surrogate and out-of-range exclusions
of UTF-8). -/
def utf8Cont1Ok (b b1 : Nat) : Bool :=
  if b = 0xE0 then 0xA0 ≤ b1 && b1 ≤ 0xBF
  else if b = 0xED then 0x80 ≤ b1 && b1 ≤ 0x9F
  else if b = 0xF0 then 0x90 ≤ b1 && b1 ≤ 0xBF
  else if b = 0xF4 then 0x80 ≤ b1 && b1 ≤ 0x8F
  else isContByte b1

/-- Decode one scalar value: given a lead byte and the bytes that follow it,
return the decoded character and how many bytes beyond the lead are
consumed.  On an invalid or truncated sequence the replacement character is
produced and only the maximal valid prefix is consumed. -/
def utf8DecodeOne (b : Nat) (rest : List Nat) : Char × Nat :=
  if b ≤ 0x7F then (Char.ofNat b, 0)
  else if 0xC2 ≤ b && b ≤ 0xDF then
    match rest with
    | b1 :: _ =>
      if isContByte b1 then (Char.ofNat ((b - 0xC0) * 0x40 + (b1 - 0x80)), 1)
      else (replacementChar, 0)
    | [] => (replacementChar, 0)
  else if 0xE0 ≤ b && b ≤ 0xEF then
    match rest with
    | b1 :: b2 :: _ =>
      if utf8Cont1Ok b b1 then
        if isContByte b2 then
          (Char.ofNat ((b - 0xE0) * 0x1000 + (b1 - 0x80) * 0x40 + (b2 - 0x80)), 2)
        else (replacementChar, 1)
      else (replacementChar, 0)
    | [b1] => if utf8Cont1Ok b b1 then (replacementChar, 1) else (replacementChar, 0)
    | [] => (replacementChar, 0)
  else if 0xF0 ≤ b && b ≤ 0xF4 then
    match rest with
    | b1 :: b2 :: b3 :: _ =>
      if utf8Cont1Ok b b1 then
        if isContByte b2 then
          if isContByte b3 then
            (Char.ofNat ((b - 0xF0) * 0x40000 + (b1 - 0x80) * 0x1000 +
              (b2 - 0x80) * 0x40 + (b3 - 0x80)), 3)
          else (replacementChar, 2)
        else (replacementChar, 1)
      else (replacementChar, 0)
    | [b1, b2] =>
      if utf8Cont1Ok b b1 then
        if isContByte b2 then (replacementChar, 2) else (replacementChar, 1)
      else (replacementChar, 0)
    | [b1] => if utf8Cont1Ok b b1 then (replacementChar, 1) else (replacementChar, 0)
    | [] => (replacementChar, 0)
  else (replacementChar, 0)

/-- Decode a byte list to characters, lossily.  Structural recursion on a
fuel argument; every step consumes at least one byte, so fuel equal to the
length of the list is enough. -/
def utf8LossyCharsAux : Nat → List Nat → List Char
  | 0, _ => []
  | _, [] => []
  | fuel + 1, b :: rest =>
    let d := utf8DecodeOne b rest
    d.1 :: utf8LossyCharsAux fuel (rest.drop d.2)

/-- Decode a byte list to characters, lossily. -/
def utf8LossyChars (l : List Nat) : List Char := utf8LossyCharsAux l.length l

/-- Model of Rust String.from_utf8_lossy on a byte buffer. -/
def from_utf8_lossy (bytes : List Nat) : String := String.mk (utf8LossyChars bytes)

/-- Decidable equality of Except values, for evaluating the results of the
embedded operations on concrete inputs. -/
instance exceptDecEq {ε α : Type} [DecidableEq ε] [DecidableEq α] :
    DecidableEq (Except ε α) := fun a b =>
  match a, b with
  | .error e1, .error e2 =>
    if h : e1 = e2 then isTrue (by rw [h]) else isFalse (by simp [h])
  | .error _, .ok _ => isFalse (by simp)
  | .ok _, .error _ => isFalse (by simp)
  | .ok v1, .ok v2 =>
    if h : v1 = v2 then isTrue (by rw [h]) else isFalse (by simp [h])

/-! ### The effect environment

All interactions of pdfcore with the outside world, as one record of
functions.  Quantifying theorems over this record expresses facts such as
"the result does not depend on the PATH probe" or "no process result is
consumed". -/

/-- A built command: a resolved program path plus its argument list
(std::process::Command before spawning). -/
structure Cmd where
  prog : String
  args : List String
deriving DecidableEq, Repr

/-- Captured output of a finished process (std::process::Output).
The exit code is none when the process was terminated by a signal; the
status is a success exactly when the code is zero. -/
structure ProcOutput where
  code : Option Int
  stdout : List Nat
  stderr : List Nat
deriving DecidableEq, Repr

/-- Model of a lopdf object id: object number and generation number. -/
abbrev ObjectId := Nat × Nat

/-- Format tag of a lopdf string object. -/
inductive StringFormat where
  | Literal
  | Hexadecimal
deriving DecidableEq, Repr

/-- Model of lopdf::Object.  The payload of a Real is modelled by the decimal
text its f32 renders to (float formatting is a library capability, out of
scope of the crate). -/
inductive PdfObject where
  | Null
  | Boolean (b : Bool)
  | Integer (i : Int)
  | Real (decimalText : String)
  | Name (bytes : List Nat)
  | Strn (bytes : List Nat) (format : StringFormat)
  | Arr (xs : List PdfObject)
  | Dict (entries : List (List Nat × PdfObject))
  | Stream (dict : List (List Nat × PdfObject))
  | Reference (id : ObjectId)

/-- Model of a parsed lopdf::Document: the page count its page-tree
traversal produces, the trailer dictionary, and the object table. -/
structure Document where
  pageCount : Nat
  trailer : List (List Nat × PdfObject)
  objects : List (ObjectId × PdfObject)

/-- The effectful boundary of pdfcore: filesystem existence (Path::exists),
environment variables (std::env::var_os), PATH probing (which::which),
process execution (Command::output, an Except error being the io::Error of
a failed spawn), and PDF parsing (lopdf::Document::load, an Except error
being the rendered lopdf::Error). -/
structure Env where
  fileExists : String → Bool
  envVar : String → Option String
  which : String → Option String
  run : Cmd → Except String ProcOutput
  load : String → Except String Document

/-! ### Error taxonomy and data model -/

/-- Model of pdfcore::PdfError. -/
inductive PdfError where
  | InputNotFound (path : String)
  | PdfParse (path : String) (source : String)
  | MissingTool (tool : String) (hint : String)
  | ToolFailed (tool : String) (command : String) (status : Int)
      (stdout : String) (stderr : String)
  | IoError (e : String)
  | InvalidArgument (msg : String)
deriving DecidableEq, Repr

/-- Model of pdfcore::PdfInfo.  The pages field is a u32 in the source; the
overflow guard in info keeps the value below 2 to the 32.  The BTreeMap of
metadata is modelled as a by-key-sorted association list. -/
structure PdfInfo where
  pages : Nat
  metadata : List (String × String)
deriving DecidableEq, Repr

/-- Model of pdfcore::validate_input_file. -/
def validate_input_file (env : Env) (path : String) : Except PdfError Unit :=
  if env.fileExists path = true then .ok () else .error (.InputNotFound path)

/-- Model of pdfcore::CompressPreset. -/
inductive CompressPreset where
  | Screen
  | Ebook
  | Printer
  | Prepress
  | Default
deriving DecidableEq, Repr

/-- Model of CompressPreset::as_gs_setting. -/
def CompressPreset.as_gs_setting : CompressPreset → String
  | .Screen => "/screen"
  | .Ebook => "/ebook"
  | .Printer => "/printer"
  | .Prepress => "/prepress"
  | .Default => "/default"

/-- Model of pdfcore::PageSelection (start and end are u32 in the source). -/
inductive PageSelection where
  | All
  | Range (start : Nat) (stop : Nat)
deriving DecidableEq, Repr

/-- Model of PageSelection::to_qpdf_arg. -/
def PageSelection.to_qpdf_arg : PageSelection → Option String
  | .All => none
  | .Range start stop => some (toString start ++ "-" ++ toString stop)

/-- Model of the Display instance of PageSelection. -/
def PageSelection.render : PageSelection → String
  | .All => "all"
  | .Range start stop => toString start ++ "-" ++ toString stop

/-! ### Tools and the tool locator -/

/-- Model of the private Tool enumeration. -/
inductive Tool where
  | Qpdf
  | Pdftotext
  | Ghostscript
deriving DecidableEq, Repr

/-- Model of Tool::name. -/
def Tool.name : Tool → String
  | .Qpdf => "qpdf"
  | .Pdftotext => "pdftotext"
  | .Ghostscript => "ghostscript"

/-- Model of Tool::env_override. -/
def Tool.env_override : Tool → String
  | .Qpdf => "PDFCLI_QPDF"
  | .Pdftotext => "PDFCLI_PDFTOTEXT"
  | .Ghostscript => "PDFCLI_GS"

/-- Model of Tool::default_exe_names. -/
def Tool.default_exe_names : Tool → List String
  | .Qpdf => ["qpdf"]
  | .Pdftotext => ["pdftotext"]
  | .Ghostscript => ["gs", "gswin64c", "gswin32c"]

/-- Model of Tool::install_hint. -/
def Tool.install_hint (t : Tool) : String :=
  let tool := t.name
  let mac :=
    match t with
    | .Ghostscript => "brew install ghostscript"
    | _ => "brew install " ++ tool
  let ubuntu :=
    match t with
    | .Pdftotext => "sudo apt-get update && sudo apt-get install -y poppler-utils"
    | .Ghostscript => "sudo apt-get update && sudo apt-get install -y ghostscript"
    | .Qpdf => "sudo apt-get update && sudo apt-get install -y qpdf"
  let windows :=
    match t with
    | .Ghostscript => "choco install ghostscript OR scoop install ghostscript"
    | .Pdftotext => "choco install poppler OR scoop install poppler"
    | .Qpdf => "choco install qpdf OR scoop install qpdf"
  "Set " ++ t.env_override ++ " to a full path, or install:\n  macOS: " ++ mac ++
    "\n  Ubuntu/Debian: " ++ ubuntu ++ "\n  Windows: " ++ windows

/-- Probe the default executable names in listed order against the search
path; model of the which::which loop inside find_tool. -/
def which_first (env : Env) : List String → Option String
  | [] => none
  | exe :: rest =>
    match env.which exe with
    | some p => some p
    | none => which_first env rest

/-- Model of pdfcore::find_tool. -/
def find_tool (env : Env) (tool : Tool) : Except PdfError String :=
  match env.envVar tool.env_override with
  | some val =>
    if env.fileExists val = true then .ok val
    else .error (.MissingTool tool.name
      (tool.env_override ++ " was set to " ++ val ++
        ", but that path does not exist.\n\n" ++ tool.install_hint))
  | none =>
    match which_first env tool.default_exe_names with
    | some p => .ok p
    | none => .error (.MissingTool tool.name tool.install_hint)

/-! ### Command rendering and the process runner -/

/-- Character membership in a character list. -/
def list_has_char : List Char → Char → Bool
  | [], _ => false
  | a :: as, c => a = c || list_has_char as c

/-- Replace every double quote by a backslash followed by a double quote;
model of the Rust replace call with the quote character as pattern. -/
def escape_quotes : List Char → List Char
  | [] => []
  | c :: rest =>
    if c = '"' then '\\' :: '"' :: escape_quotes rest else c :: escape_quotes rest

/-- Whitespace predicate used by trimming (the command strings built here
only ever contain the plain space character). -/
def is_ws (c : Char) : Bool := c = ' ' || c = '\t' || c = '\n' || c = '\r'

/-- Model of Rust str::trim: strip leading and trailing whitespace. -/
def rust_trim (s : String) : String :=
  String.mk (((s.data.dropWhile is_ws).reverse.dropWhile is_ws).reverse)

/-- Join strings with single spaces; model of the join of the escaped
argument list inside command_to_string. -/
def join_space : List String → String
  | [] => ""
  | [s] => s
  | s :: rest => s ++ " " ++ join_space rest

/-- Model of pdfcore::shell_escape: an argument containing a space is
double-quoted with internal quotes escaped, any other argument is passed
through unchanged. -/
def shell_escape (s : String) : String :=
  if list_has_char s.data ' ' then "\"" ++ String.mk (escape_quotes s.data) ++ "\""
  else s

/-- Model of pdfcore::command_to_string. -/
def command_to_string (cmd : Cmd) : String :=
  rust_trim (cmd.prog ++ " " ++ join_space (cmd.args.map shell_escape))

/-- Model of pdfcore::run_tool.  A status is a success exactly when the exit
code is zero; a signal-terminated process has no code and status.code()
falls back to minus one in the error payload. -/
def run_tool (env : Env) (tool : Tool) (cmd : Cmd) : Except PdfError Unit :=
  let command_str := command_to_string cmd
  match env.run cmd with
  | .error e => .error (.IoError e)
  | .ok out =>
    if out.code = some 0 then .ok ()
    else .error (.ToolFailed tool.name command_str (out.code.getD (-1))
      (from_utf8_lossy out.stdout) (from_utf8_lossy out.stderr))

/-- Model of pdfcore::run_tool_capture. -/
def run_tool_capture (env : Env) (tool : Tool) (cmd : Cmd) : Except PdfError String :=
  let command_str := command_to_string cmd
  match env.run cmd with
  | .error e => .error (.IoError e)
  | .ok out =>
    if out.code = some 0 then .ok (from_utf8_lossy out.stdout)
    else .error (.ToolFailed tool.name command_str (out.code.getD (-1))
      (from_utf8_lossy out.stdout) (from_utf8_lossy out.stderr))

/-! ### Operations -/

/-- The input validation loop at the top of merge. -/
def validate_inputs (env : Env) : List String → Except PdfError Unit
  | [] => .ok ()
  | p :: rest =>
    match validate_input_file env p with
    | .error e => .error e
    | .ok _ => validate_inputs env rest

/-- Model of pdfcore::merge. -/
def merge (env : Env) (inputs : List String) (output : String) : Except PdfError Unit :=
  if inputs = [] then .error (.InvalidArgument "merge requires at least one input")
  else
    match validate_inputs env inputs with
    | .error e => .error e
    | .ok _ =>
      match find_tool env Tool.Qpdf with
      | .error e => .error e
      | .ok qpdf =>
        run_tool env Tool.Qpdf
          ⟨qpdf, ["--empty", "--pages"] ++ inputs ++ ["--", output]⟩

/-- Substring test on character lists. -/
def list_infix_check (pat : List Char) : List Char → Bool
  | [] => pat.isEmpty
  | c :: rest => pat.isPrefixOf (c :: rest) || list_infix_check pat rest

/-- Model of Rust str::contains with a string pattern. -/
def contains_substr (s pat : String) : Bool := list_infix_check pat.data s.data

/-- Whether a path string ends with the Unix path separator. -/
def ends_with_slash (s : String) : Bool :=
  match s.data.getLast? with
  | some c => c = '/'
  | none => false

/-- Model of PathBuf::push of a relative file name on a Unix path, followed
by to_string_lossy. -/
def path_push (dir file : String) : String :=
  if dir = "" then file
  else if ends_with_slash dir = true then dir ++ file
  else dir ++ "/" ++ file

/-- Model of pdfcore::split_pages. -/
def split_pages (env : Env) (input outDir : String) (pattern : Option String) :
    Except PdfError Unit :=
  match validate_input_file env input with
  | .error e => .error e
  | .ok _ =>
    match find_tool env Tool.Qpdf with
    | .error e => .error e
    | .ok qpdf =>
      let pat :=
        match pattern with
        | some p => p
        | none => path_push outDir "page-%d.pdf"
      if contains_substr pat "%d" = true then
        run_tool env Tool.Qpdf ⟨qpdf, ["--split-pages", input, pat]⟩
      else .error (.InvalidArgument "split_pages pattern must contain %d")

/-- Model of pdfcore::extract_text. -/
def extract_text (env : Env) (input : String) (output : Option String) :
    Except PdfError String :=
  match validate_input_file env input with
  | .error e => .error e
  | .ok _ =>
    match find_tool env Tool.Pdftotext with
    | .error e => .error e
    | .ok pdftotext =>
      match output with
      | some out =>
        match run_tool env Tool.Pdftotext ⟨pdftotext, [input, out]⟩ with
        | .error e => .error e
        | .ok _ => .ok ""
      | none => run_tool_capture env Tool.Pdftotext ⟨pdftotext, [input, "-"]⟩

/-- Model of pdfcore::rotate (degrees is a u16 in the source). -/
def rotate (env : Env) (input output : String) (degrees : Nat)
    (pages : Option PageSelection) : Except PdfError Unit :=
  match validate_input_file env input with
  | .error e => .error e
  | .ok _ =>
    match find_tool env Tool.Qpdf with
    | .error e => .error e
    | .ok qpdf =>
      if degrees = 0 ∨ degrees = 90 ∨ degrees = 180 ∨ degrees = 270 then
        let pg := pages.getD PageSelection.All
        let rotate_arg :=
          match pg.to_qpdf_arg with
          | some sel => "+" ++ toString degrees ++ ":" ++ sel
          | none => "+" ++ toString degrees
        run_tool env Tool.Qpdf ⟨qpdf, ["--rotate", rotate_arg, input, output]⟩
      else .error (.InvalidArgument "degrees must be 0, 90, 180, or 270")

/-- Model of pdfcore::compress. -/
def compress (env : Env) (input output : String) (preset : CompressPreset) :
    Except PdfError Unit :=
  match validate_input_file env input with
  | .error e => .error e
  | .ok _ =>
    match find_tool env Tool.Ghostscript with
    | .error e => .error e
    | .ok gs =>
      run_tool env Tool.Ghostscript
        ⟨gs, ["-sDEVICE=pdfwrite", "-dCompatibilityLevel=1.4",
              "-dPDFSETTINGS=" ++ preset.as_gs_setting, "-dNOPAUSE", "-dBATCH",
              "-dSAFER", "-sOutputFile=" ++ output, input]⟩

/-! ### The structural reader (info) -/

/-- Lookup in a lopdf dictionary (first entry with the given key). -/
def dict_get (d : List (List Nat × PdfObject)) (key : List Nat) : Option PdfObject :=
  match d with
  | [] => none
  | (k, v) :: rest => if k = key then some v else dict_get rest key

/-- Model of lopdf Object::as_reference. -/
def as_reference : PdfObject → Option ObjectId
  | .Reference id => some id
  | _ => none

/-- Model of lopdf Object::as_dict. -/
def as_dict : PdfObject → Option (List (List Nat × PdfObject))
  | .Dict d => some d
  | _ => none

/-- Lookup in the object table of a document; model of Document::get_object. -/
def objects_get : List (ObjectId × PdfObject) → ObjectId → Option PdfObject
  | [], _ => none
  | (k, v) :: rest, id => if k = id then some v else objects_get rest id

/-- Model of pdfcore::pdf_object_to_string, the fixed coercion table. -/
def pdf_object_to_string : PdfObject → Option String
  | .Strn bytes _ => some (from_utf8_lossy bytes)
  | .Name name => some (from_utf8_lossy name)
  | .Integer i => some (toString i)
  | .Real decimalText => some decimalText
  | .Boolean b => some (if b then "true" else "false")
  | _ => none

/-- Lexicographic strict order on character lists by code point. -/
def char_list_lt : List Char → List Char → Bool
  | [], [] => false
  | [], _ :: _ => true
  | _ :: _, [] => false
  | a :: as, b :: bs =>
    if a.toNat < b.toNat then true
    else if b.toNat < a.toNat then false
    else char_list_lt as bs

/-- Lexicographic strict order on strings; Rust BTreeMap with String keys
compares UTF-8 bytes, which agrees with this code-point order. -/
def string_lt (a b : String) : Bool := char_list_lt a.data b.data

/-- Insertion into a by-key-sorted association list; model of
BTreeMap::insert with String keys. -/
def btree_insert (k v : String) : List (String × String) → List (String × String)
  | [] => [(k, v)]
  | (k2, v2) :: rest =>
    if string_lt k k2 = true then (k, v) :: (k2, v2) :: rest
    else if k = k2 then (k, v) :: rest
    else (k2, v2) :: btree_insert k v rest

/-- The metadata loop inside info: iterate the entries of the Info
dictionary in order, decode each key lossily, keep the entries the coercion
table accepts. -/
def collect_metadata (acc : List (String × String)) :
    List (List Nat × PdfObject) → List (String × String)
  | [] => acc
  | (k, v) :: rest =>
    match pdf_object_to_string v with
    | some val => collect_metadata (btree_insert (from_utf8_lossy k) val acc) rest
    | none => collect_metadata acc rest

/-- The bytes of the trailer key Info. -/
def infoKey : List Nat := [0x49, 0x6E, 0x66, 0x6F]

/-- Model of pdfcore::info.  The u32 conversion of the page count fails
exactly when the count is at least 2 to the 32. -/
def info (env : Env) (path : String) : Except PdfError PdfInfo :=
  match validate_input_file env path with
  | .error e => .error e
  | .ok _ =>
    match env.load path with
    | .error e => .error (.PdfParse path e)
    | .ok doc =>
      if doc.pageCount < 4294967296 then
        let metadata :=
          match dict_get doc.trailer infoKey with
          | none => []
          | some obj =>
            match as_reference obj with
            | none => []
            | some id =>
              match objects_get doc.objects id with
              | none => []
              | some o =>
                match as_dict o with
                | none => []
                | some d => collect_metadata [] d
        .ok ⟨doc.pageCount, metadata⟩
      else .error (.InvalidArgument "page count overflow")

/-! ### Concrete environments and documents used to evaluate the theorems -/

/-- An environment with no files, no variables, no tools on the search
path, a failing spawn and a failing parser. -/
def envEmpty : Env :=
  { fileExists := fun _ => false
    envVar := fun _ => none
    which := fun _ => none
    run := fun _ => .error "spawn failure"
    load := fun _ => .error "parse failure" }

/-- An environment in which every path exists, the qpdf override points at
a path that exists, and every spawned process succeeds with stdout hi. -/
def envToolOk : Env :=
  { fileExists := fun _ => true
    envVar := fun k => if k = "PDFCLI_QPDF" then some "/bin/qpdf"
      else if k = "PDFCLI_PDFTOTEXT" then some "/bin/pdftotext"
      else if k = "PDFCLI_GS" then some "/bin/gs" else none
    which := fun _ => none
    run := fun _ => .ok { code := some 0, stdout := [104, 105], stderr := [] }
    load := fun _ => .error "parse failure" }

/-- Like envToolOk but every spawned process exits with code 2. -/
def envToolFails : Env :=
  { envToolOk with
    run := fun _ => .ok { code := some 2, stdout := [104, 105], stderr := [101, 114, 114] } }

/-- Like envToolOk but every spawned process dies to a signal, so the exit
status carries no code. -/
def envToolSignal : Env :=
  { envToolOk with run := fun _ => .ok { code := none, stdout := [], stderr := [107] } }

/-- Like envToolOk except that one particular input file is missing. -/
def envOneMissing : Env :=
  { envToolOk with fileExists := fun p => if p = "gone.pdf" then false else true }

/-- An environment in which the qpdf override is set to a path that does
not exist while the default-name search would succeed; the locator must
still fail. -/
def envOverrideBad : Env :=
  { fileExists := fun _ => false
    envVar := fun k => if k = "PDFCLI_QPDF" then some "/fake/qpdf" else none
    which := fun _ => some "/usr/bin/qpdf"
    run := fun _ => .error "spawn failure"
    load := fun _ => .error "parse failure" }

/-- An environment whose parser always yields the given document and in
which every path exists. -/
def envWithDoc (doc : Document) : Env :=
  { fileExists := fun _ => true
    envVar := fun _ => none
    which := fun _ => none
    run := fun _ => .error "spawn failure"
    load := fun _ => .ok doc }

/-- A document whose trailer Info reference resolves to a dictionary with a
string entry, a boolean entry and an array entry. -/
def docWithInfo : Document :=
  { pageCount := 3
    trailer := [(infoKey, .Reference (1, 0))]
    objects := [((1, 0), .Dict
      [([0x54], .Strn [0x41] .Literal), ([0x42], .Boolean true), ([0x43], .Arr [])])] }

/-- A document whose trailer has no Info entry. -/
def docNoInfo : Document := { pageCount := 1, trailer := [], objects := [] }

/-- A document whose trailer Info entry is not a reference. -/
def docInfoNotRef : Document :=
  { pageCount := 1, trailer := [(infoKey, .Integer 5)], objects := [] }

/-- A document whose trailer Info reference resolves to nothing. -/
def docInfoDangling : Document :=
  { pageCount := 1, trailer := [(infoKey, .Reference (9, 0))], objects := [] }

/-- A document whose trailer Info reference resolves to a non-dictionary. -/
def docInfoNotDict : Document :=
  { pageCount := 1
    trailer := [(infoKey, .Reference (1, 0))]
    objects := [((1, 0), .Integer 3)] }

/-- A document whose page count does not fit in a u32. -/
def docHugePageCount : Document :=
  { pageCount := 4294967296, trailer := [], objects := [] }

/-! ### Helper lemmas -/

/-- If every listed input exists, the validation loop of merge succeeds. -/
theorem validate_inputs_all_ok (env : Env) :
    ∀ l : List String, (∀ x ∈ l, env.fileExists x = true) →
      validate_inputs env l = .ok () := by
  intro l
  induction l with
  | nil => intro _; rfl
  | cons a as ih =>
    intro h
    have ha := h a (by simp)
    simp [validate_inputs, validate_input_file, ha]
    exact ih fun x hx => h x (by simp [hx])

/-- The validation loop of merge reports the first missing input. -/
theorem validate_inputs_first_missing (env : Env) (p : String) (post : List String)
    (hp : env.fileExists p = false) :
    ∀ pre : List String, (∀ x ∈ pre, env.fileExists x = true) →
      validate_inputs env (pre ++ p :: post) = .error (.InputNotFound p) := by
  intro pre
  induction pre with
  | nil => intro _; simp [validate_inputs, validate_input_file, hp]
  | cons a as ih =>
    intro h
    have ha := h a (by simp)
    simp [validate_inputs, validate_input_file, ha]
    exact ih fun x hx => h x (by simp [hx])

/-- Concatenating on the left preserves a substring occurrence. -/
theorem list_infix_check_append (pat ys : List Char) (h : list_infix_check pat ys = true) :
    ∀ xs : List Char, list_infix_check pat (xs ++ ys) = true := by
  intro xs
  induction xs with
  | nil => simpa using h
  | cons c cs ih => simp [list_infix_check, ih]

/-- The character data of an appended string. -/
theorem string_data_append (a b : String) : (a ++ b).data = a.data ++ b.data := by
  cases a; cases b; rfl

/-- The default split pattern always contains the token the percent check
looks for, whatever the output directory is. -/
theorem default_pattern_contains_token (dir : String) :
    contains_substr (path_push dir "page-%d.pdf") "%d" = true := by
  have base : list_infix_check ("%d").data ("page-%d.pdf").data = true := by decide
  unfold path_push
  split
  · exact base
  · split
    · show contains_substr (dir ++ "page-%d.pdf") "%d" = true
      unfold contains_substr
      rw [string_data_append]
      exact list_infix_check_append _ _ base _
    · show contains_substr (dir ++ "/" ++ "page-%d.pdf") "%d" = true
      unfold contains_substr
      rw [string_data_append]
      exact list_infix_check_append _ _ base _

/-! ### Claim theorems -/

/-- C1: for every operation taking an input file (merge, split_pages,
extract_text, rotate, compress, info), a nonexistent input path yields
InputNotFound whatever the rest of the environment does: the conclusion
holds for every environment, hence before the tool locator is consulted,
before any process is spawned and before any parse is attempted, even when
the required tool is itself absent; in particular info never turns a
missing file into PdfParse. -/
theorem C1_missing_input_reported_first (env : Env) (input output outDir : String)
    (rest : List String) (degrees : Nat) (pages : Option PageSelection)
    (pattern : Option String) (textOut : Option String) (preset : CompressPreset)
    (h : env.fileExists input = false) :
    merge env (input :: rest) output = .error (.InputNotFound input) ∧
    split_pages env input outDir pattern = .error (.InputNotFound input) ∧
    extract_text env input textOut = .error (.InputNotFound input) ∧
    rotate env input output degrees pages = .error (.InputNotFound input) ∧
    compress env input output preset = .error (.InputNotFound input) ∧
    info env input = .error (.InputNotFound input) := by
  refine ⟨?_, ?_, ?_, ?_, ?_, ?_⟩ <;>
    simp [merge, split_pages, extract_text, rotate, compress, info,
      validate_inputs, validate_input_file, h]

/-- Evaluation of C1 in the environment with no files and no tools. -/
theorem C1_missing_input_reported_first_witness :
    merge envEmpty ["in.pdf"] "out.pdf" = .error (.InputNotFound "in.pdf") ∧
    split_pages envEmpty "in.pdf" "dir" none = .error (.InputNotFound "in.pdf") ∧
    extract_text envEmpty "in.pdf" none = .error (.InputNotFound "in.pdf") ∧
    rotate envEmpty "in.pdf" "out.pdf" 90 none = .error (.InputNotFound "in.pdf") ∧
    compress envEmpty "in.pdf" "out.pdf" .Ebook = .error (.InputNotFound "in.pdf") ∧
    info envEmpty "in.pdf" = .error (.InputNotFound "in.pdf") :=
  C1_missing_input_reported_first envEmpty "in.pdf" "out.pdf" "dir" [] 90 none none none
    .Ebook rfl

/-- C2: with the override variable of a tool set, the locator uses the
value verbatim: an existing path is returned as is, a nonexistent one
fails with MissingTool whose hint records that the override was set but
invalid and appends the install instructions.  The environment, and with
it the default-name probe, is universally quantified, so no fallback to
the default executable names can occur. -/
theorem C2_override_used_verbatim (env : Env) (tool : Tool) (val : String)
    (h : env.envVar tool.env_override = some val) :
    (env.fileExists val = true → find_tool env tool = .ok val) ∧
    (env.fileExists val = false → find_tool env tool = .error (.MissingTool tool.name
      (tool.env_override ++ " was set to " ++ val ++
        ", but that path does not exist.\n\n" ++ tool.install_hint))) := by
  constructor <;> intro hex <;> simp [find_tool, h, hex]

/-- Evaluation of C2: an existing override is returned verbatim, and a bad
override fails even though the default-name probe of the environment would
have resolved the tool. -/
theorem C2_override_used_verbatim_witness :
    find_tool envToolOk Tool.Qpdf = .ok "/bin/qpdf" ∧
    find_tool envOverrideBad Tool.Qpdf = .error (.MissingTool Tool.Qpdf.name
      (Tool.Qpdf.env_override ++ " was set to " ++ "/fake/qpdf" ++
        ", but that path does not exist.\n\n" ++ Tool.Qpdf.install_hint)) :=
  ⟨(C2_override_used_verbatim envToolOk Tool.Qpdf "/bin/qpdf" rfl).1 rfl,
   (C2_override_used_verbatim envOverrideBad Tool.Qpdf "/fake/qpdf" rfl).2 rfl⟩

/-- C3: merge on the empty input list fails with InvalidArgument in every
environment, hence before any tool is located; each input is validated in
order before the locator (the first missing one is reported in every
environment); and with all inputs present the built argument list is
exactly the empty and pages flags, the inputs, the separator and the
output. -/
theorem C3_merge_validation_and_args :
    (∀ env output, merge env [] output =
      .error (.InvalidArgument "merge requires at least one input")) ∧
    (∀ env output pre p post, (∀ x ∈ pre, env.fileExists x = true) →
      env.fileExists p = false →
      merge env (pre ++ p :: post) output = .error (.InputNotFound p)) ∧
    (∀ env inputs output qpdf, inputs ≠ [] →
      (∀ x ∈ inputs, env.fileExists x = true) →
      find_tool env Tool.Qpdf = .ok qpdf →
      merge env inputs output = run_tool env Tool.Qpdf
        ⟨qpdf, ["--empty", "--pages"] ++ inputs ++ ["--", output]⟩) := by
  refine ⟨fun env output => by simp [merge], ?_, ?_⟩
  · intro env output pre p post hpre hp
    have hne : pre ++ p :: post ≠ [] := by simp
    simp only [merge, if_neg hne, validate_inputs_first_missing env p post hp pre hpre]
  · intro env inputs output qpdf hne hall hq
    simp only [merge, if_neg hne, validate_inputs_all_ok env inputs hall, hq]

/-- Evaluation of C3 at concrete inputs: the empty list, a list whose
second element is missing, and a fully existing list. -/
theorem C3_merge_validation_and_args_witness :
    merge envEmpty [] "out.pdf" =
      .error (.InvalidArgument "merge requires at least one input") ∧
    merge envOneMissing (["a.pdf"] ++ "gone.pdf" :: ["c.pdf"]) "out.pdf" =
      .error (.InputNotFound "gone.pdf") ∧
    merge envToolFails ["a.pdf", "b.pdf"] "out.pdf" = run_tool envToolFails Tool.Qpdf
      ⟨"/bin/qpdf", ["--empty", "--pages"] ++ ["a.pdf", "b.pdf"] ++ ["--", "out.pdf"]⟩ := by
  refine ⟨C3_merge_validation_and_args.1 envEmpty "out.pdf", ?_, ?_⟩
  · exact C3_merge_validation_and_args.2.1 envOneMissing "out.pdf" ["a.pdf"]
      "gone.pdf" ["c.pdf"] (by decide) (by decide)
  · exact C3_merge_validation_and_args.2.2 envToolFails ["a.pdf", "b.pdf"] "out.pdf"
      "/bin/qpdf" (by decide) (by intro x hx; rfl) rfl

/-- C4: with the input present and the tool located, rotate rejects any
degree value outside 0, 90, 180 and 270 with InvalidArgument in every
environment (so no process result is consumed); with a valid degree it
invokes the tool with the rotate flag, the plus-degrees argument carrying
a colon range suffix exactly for a Range selection and no suffix for the
All selection (explicit or defaulted), then the input and the output. -/
theorem C4_rotate_degrees_and_args :
    (∀ env input output degrees pages qpdf, env.fileExists input = true →
      find_tool env Tool.Qpdf = .ok qpdf →
      ¬(degrees = 0 ∨ degrees = 90 ∨ degrees = 180 ∨ degrees = 270) →
      rotate env input output degrees pages =
        .error (.InvalidArgument "degrees must be 0, 90, 180, or 270")) ∧
    (∀ env input output degrees start stop qpdf, env.fileExists input = true →
      find_tool env Tool.Qpdf = .ok qpdf →
      (degrees = 0 ∨ degrees = 90 ∨ degrees = 180 ∨ degrees = 270) →
      rotate env input output degrees (some (.Range start stop)) =
        run_tool env Tool.Qpdf ⟨qpdf,
          ["--rotate", "+" ++ toString degrees ++ ":" ++
            (toString start ++ "-" ++ toString stop), input, output]⟩) ∧
    (∀ env input output degrees pages qpdf, env.fileExists input = true →
      find_tool env Tool.Qpdf = .ok qpdf →
      (degrees = 0 ∨ degrees = 90 ∨ degrees = 180 ∨ degrees = 270) →
      (pages = none ∨ pages = some .All) →
      rotate env input output degrees pages =
        run_tool env Tool.Qpdf ⟨qpdf,
          ["--rotate", "+" ++ toString degrees, input, output]⟩) := by
  refine ⟨?_, ?_, ?_⟩
  · intro env input output degrees pages qpdf h1 h2 hdeg
    simp [rotate, validate_input_file, h1, h2, hdeg]
  · intro env input output degrees start stop qpdf h1 h2 hdeg
    simp [rotate, validate_input_file, h1, h2, hdeg, PageSelection.to_qpdf_arg]
  · intro env input output degrees pages qpdf h1 h2 hdeg hp
    rcases hp with hp | hp <;>
      simp [rotate, validate_input_file, h1, h2, hdeg, hp, PageSelection.to_qpdf_arg]

/-- Evaluation of C4: degrees 45 is rejected, degrees 90 with a range
produces the colon suffix, degrees 180 with no selection omits it. -/
theorem C4_rotate_degrees_and_args_witness :
    rotate envToolFails "a.pdf" "b.pdf" 45 none =
      .error (.InvalidArgument "degrees must be 0, 90, 180, or 270") ∧
    rotate envToolFails "a.pdf" "b.pdf" 90 (some (.Range 2 5)) =
      run_tool envToolFails Tool.Qpdf ⟨"/bin/qpdf",
        ["--rotate", "+" ++ toString 90 ++ ":" ++ (toString 2 ++ "-" ++ toString 5),
          "a.pdf", "b.pdf"]⟩ ∧
    rotate envToolFails "a.pdf" "b.pdf" 180 none =
      run_tool envToolFails Tool.Qpdf ⟨"/bin/qpdf",
        ["--rotate", "+" ++ toString 180, "a.pdf", "b.pdf"]⟩ :=
  ⟨C4_rotate_degrees_and_args.1 envToolFails "a.pdf" "b.pdf" 45 none "/bin/qpdf" rfl rfl
      (by decide),
   C4_rotate_degrees_and_args.2.1 envToolFails "a.pdf" "b.pdf" 90 2 5 "/bin/qpdf" rfl rfl
      (by decide),
   C4_rotate_degrees_and_args.2.2 envToolFails "a.pdf" "b.pdf" 180 none "/bin/qpdf" rfl rfl
      (by decide) (Or.inl rfl)⟩

/-- C5: with the input present and the tool located, split_pages with a
supplied pattern lacking the percent-d token fails with InvalidArgument in
every environment, so no process result is consumed; with no pattern the
default is the output directory joined with page-percent-d dot pdf and the
tool receives the split-pages flag, the input and the pattern; a supplied
pattern containing the token is passed through unchanged in the same
argument shape. -/
theorem C5_split_pages_pattern :
    (∀ env input outDir p qpdf, env.fileExists input = true →
      find_tool env Tool.Qpdf = .ok qpdf →
      contains_substr p "%d" = false →
      split_pages env input outDir (some p) =
        .error (.InvalidArgument "split_pages pattern must contain %d")) ∧
    (∀ env input outDir qpdf, env.fileExists input = true →
      find_tool env Tool.Qpdf = .ok qpdf →
      split_pages env input outDir none = run_tool env Tool.Qpdf
        ⟨qpdf, ["--split-pages", input, path_push outDir "page-%d.pdf"]⟩) ∧
    (∀ env input outDir p qpdf, env.fileExists input = true →
      find_tool env Tool.Qpdf = .ok qpdf →
      contains_substr p "%d" = true →
      split_pages env input outDir (some p) = run_tool env Tool.Qpdf
        ⟨qpdf, ["--split-pages", input, p]⟩) := by
  refine ⟨?_, ?_, ?_⟩
  · intro env input outDir p qpdf h1 h2 hpat
    simp [split_pages, validate_input_file, h1, h2, hpat]
  · intro env input outDir qpdf h1 h2
    simp [split_pages, validate_input_file, h1, h2, default_pattern_contains_token]
  · intro env input outDir p qpdf h1 h2 hpat
    simp [split_pages, validate_input_file, h1, h2, hpat]

/-- Evaluation of C5: a pattern without the token is rejected, the default
pattern is the directory joined with page-percent-d dot pdf, and a good
custom pattern is passed through. -/
theorem C5_split_pages_pattern_witness :
    split_pages envToolFails "a.pdf" "out" (some "x.pdf") =
      .error (.InvalidArgument "split_pages pattern must contain %d") ∧
    split_pages envToolFails "a.pdf" "out" none = run_tool envToolFails Tool.Qpdf
      ⟨"/bin/qpdf", ["--split-pages", "a.pdf", path_push "out" "page-%d.pdf"]⟩ ∧
    split_pages envToolFails "a.pdf" "out" (some "part-%d.pdf") =
      run_tool envToolFails Tool.Qpdf
        ⟨"/bin/qpdf", ["--split-pages", "a.pdf", "part-%d.pdf"]⟩ :=
  ⟨C5_split_pages_pattern.1 envToolFails "a.pdf" "out" "x.pdf" "/bin/qpdf" rfl rfl
      (by decide),
   C5_split_pages_pattern.2.1 envToolFails "a.pdf" "out" "/bin/qpdf" rfl rfl,
   C5_split_pages_pattern.2.2 envToolFails "a.pdf" "out" "part-%d.pdf" "/bin/qpdf" rfl rfl
      (by decide)⟩

/-- C6: with no output path, extract_text passes the dash as the second
argument and runs in capture mode, returning the lossily decoded stdout of
a successful process; with an output path, that path is the second
argument and a successful run returns the empty string. -/
theorem C6_extract_text_output_modes :
    (∀ env input t, env.fileExists input = true →
      find_tool env Tool.Pdftotext = .ok t →
      extract_text env input none =
        run_tool_capture env Tool.Pdftotext ⟨t, [input, "-"]⟩) ∧
    (∀ env input t out, env.fileExists input = true →
      find_tool env Tool.Pdftotext = .ok t →
      env.run ⟨t, [input, "-"]⟩ = .ok out → out.code = some 0 →
      extract_text env input none = .ok (from_utf8_lossy out.stdout)) ∧
    (∀ env input outPath t, env.fileExists input = true →
      find_tool env Tool.Pdftotext = .ok t →
      extract_text env input (some outPath) =
        Except.map (fun _ => "") (run_tool env Tool.Pdftotext ⟨t, [input, outPath]⟩)) ∧
    (∀ env input outPath t out, env.fileExists input = true →
      find_tool env Tool.Pdftotext = .ok t →
      env.run ⟨t, [input, outPath]⟩ = .ok out → out.code = some 0 →
      extract_text env input (some outPath) = .ok "") := by
  refine ⟨?_, ?_, ?_, ?_⟩
  · intro env input t h1 h2
    simp [extract_text, validate_input_file, h1, h2]
  · intro env input t out h1 h2 hrun hcode
    simp [extract_text, validate_input_file, h1, h2, run_tool_capture, hrun, hcode]
  · intro env input outPath t h1 h2
    simp only [extract_text, validate_input_file, h1, if_true, eq_self_iff_true, h2]
    cases hrt : run_tool env Tool.Pdftotext ⟨t, [input, outPath]⟩ <;>
      simp [Except.map]
  · intro env input outPath t out h1 h2 hrun hcode
    simp [extract_text, validate_input_file, h1, h2, run_tool, hrun, hcode]

/-- Evaluation of C6 in an environment whose processes succeed with stdout
hi: capture mode returns hi, file mode returns the empty string. -/
theorem C6_extract_text_output_modes_witness :
    extract_text envToolOk "a.pdf" none =
      run_tool_capture envToolOk Tool.Pdftotext ⟨"/bin/pdftotext", ["a.pdf", "-"]⟩ ∧
    extract_text envToolOk "a.pdf" none = .ok (from_utf8_lossy [104, 105]) ∧
    extract_text envToolOk "a.pdf" (some "o.txt") =
      Except.map (fun _ => "")
        (run_tool envToolOk Tool.Pdftotext ⟨"/bin/pdftotext", ["a.pdf", "o.txt"]⟩) ∧
    extract_text envToolOk "a.pdf" (some "o.txt") = .ok "" :=
  ⟨C6_extract_text_output_modes.1 envToolOk "a.pdf" "/bin/pdftotext" rfl rfl,
   C6_extract_text_output_modes.2.1 envToolOk "a.pdf" "/bin/pdftotext"
      { code := some 0, stdout := [104, 105], stderr := [] } rfl rfl rfl rfl,
   C6_extract_text_output_modes.2.2.1 envToolOk "a.pdf" "o.txt" "/bin/pdftotext" rfl rfl,
   C6_extract_text_output_modes.2.2.2 envToolOk "a.pdf" "o.txt" "/bin/pdftotext"
      { code := some 0, stdout := [104, 105], stderr := [] } rfl rfl rfl rfl⟩

/-- C7: a spawned process that exits with a non-success status makes the
runner fail with ToolFailed carrying the tool name, the command line
reconstructed by command_to_string, the exit code with minus one standing
in for a signal termination, and the full stdout and stderr decoded
lossily; a success status yields success (with the captured stdout in
capture mode); an argument containing a space is double-quoted with
internal quotes escaped, any other argument is passed through unchanged. -/
theorem C7_tool_failure_diagnostics :
    (∀ env tool cmd out, env.run cmd = .ok out → ¬out.code = some 0 →
      run_tool env tool cmd = .error (.ToolFailed tool.name (command_to_string cmd)
        (out.code.getD (-1)) (from_utf8_lossy out.stdout) (from_utf8_lossy out.stderr))) ∧
    (∀ env tool cmd out, env.run cmd = .ok out → out.code = some 0 →
      run_tool env tool cmd = .ok ()) ∧
    (∀ env tool cmd out, env.run cmd = .ok out → ¬out.code = some 0 →
      run_tool_capture env tool cmd = .error (.ToolFailed tool.name (command_to_string cmd)
        (out.code.getD (-1)) (from_utf8_lossy out.stdout) (from_utf8_lossy out.stderr))) ∧
    (∀ env tool cmd out, env.run cmd = .ok out → out.code = some 0 →
      run_tool_capture env tool cmd = .ok (from_utf8_lossy out.stdout)) ∧
    (∀ s, list_has_char s.data ' ' = true →
      (shell_escape s).data = '"' :: (escape_quotes s.data ++ ['"'])) ∧
    (∀ s, list_has_char s.data ' ' = false → shell_escape s = s) := by
  refine ⟨?_, ?_, ?_, ?_, ?_, ?_⟩
  · intro env tool cmd out hrun hcode
    simp [run_tool, hrun, hcode]
  · intro env tool cmd out hrun hcode
    simp [run_tool, hrun, hcode]
  · intro env tool cmd out hrun hcode
    simp [run_tool_capture, hrun, hcode]
  · intro env tool cmd out hrun hcode
    simp [run_tool_capture, hrun, hcode]
  · intro s hs
    simp [shell_escape, hs, string_data_append]
  · intro s hs
    simp [shell_escape, hs]

/-- Evaluation of C7: a code-2 exit, a signal death mapped to minus one, a
successful run in both modes, and the two escaping shapes. -/
theorem C7_tool_failure_diagnostics_witness :
    run_tool envToolFails Tool.Qpdf ⟨"/bin/qpdf", ["a.pdf"]⟩ =
      .error (.ToolFailed Tool.Qpdf.name
        (command_to_string ⟨"/bin/qpdf", ["a.pdf"]⟩)
        ((some (2 : Int)).getD (-1))
        (from_utf8_lossy [104, 105]) (from_utf8_lossy [101, 114, 114])) ∧
    run_tool envToolSignal Tool.Qpdf ⟨"/bin/qpdf", ["a.pdf"]⟩ =
      .error (.ToolFailed Tool.Qpdf.name
        (command_to_string ⟨"/bin/qpdf", ["a.pdf"]⟩)
        ((none : Option Int).getD (-1))
        (from_utf8_lossy []) (from_utf8_lossy [107])) ∧
    run_tool envToolOk Tool.Qpdf ⟨"/bin/qpdf", ["a.pdf"]⟩ = .ok () ∧
    run_tool_capture envToolOk Tool.Pdftotext ⟨"/bin/pdftotext", ["a.pdf", "-"]⟩ =
      .ok (from_utf8_lossy [104, 105]) ∧
    (shell_escape "a \"b\"").data = '"' :: (escape_quotes ("a \"b\"").data ++ ['"']) ∧
    shell_escape "plain" = "plain" :=
  ⟨C7_tool_failure_diagnostics.1 envToolFails Tool.Qpdf ⟨"/bin/qpdf", ["a.pdf"]⟩
      { code := some 2, stdout := [104, 105], stderr := [101, 114, 114] } rfl (by decide),
   C7_tool_failure_diagnostics.1 envToolSignal Tool.Qpdf ⟨"/bin/qpdf", ["a.pdf"]⟩
      { code := none, stdout := [], stderr := [107] } rfl (by decide),
   C7_tool_failure_diagnostics.2.1 envToolOk Tool.Qpdf ⟨"/bin/qpdf", ["a.pdf"]⟩
      { code := some 0, stdout := [104, 105], stderr := [] } rfl rfl,
   C7_tool_failure_diagnostics.2.2.2.1 envToolOk Tool.Pdftotext
      ⟨"/bin/pdftotext", ["a.pdf", "-"]⟩
      { code := some 0, stdout := [104, 105], stderr := [] } rfl rfl,
   C7_tool_failure_diagnostics.2.2.2.2.1 "a \"b\"" (by decide),
   C7_tool_failure_diagnostics.2.2.2.2.2 "plain" (by decide)⟩

/-- C8: for every preset, compress invokes ghostscript with exactly the
fixed argument list, the preset token coming from the CompressPreset
mapping, and for the Ebook preset the settings argument is the literal
ebook token. -/
theorem C8_compress_args (env : Env) (input output : String) (gs : String)
    (preset : CompressPreset) (h1 : env.fileExists input = true)
    (h2 : find_tool env Tool.Ghostscript = .ok gs) :
    compress env input output preset = run_tool env Tool.Ghostscript
      ⟨gs, ["-sDEVICE=pdfwrite", "-dCompatibilityLevel=1.4",
            "-dPDFSETTINGS=" ++ preset.as_gs_setting, "-dNOPAUSE", "-dBATCH",
            "-dSAFER", "-sOutputFile=" ++ output, input]⟩ ∧
    "-dPDFSETTINGS=" ++ CompressPreset.Ebook.as_gs_setting = "-dPDFSETTINGS=/ebook" := by
  constructor
  · simp [compress, validate_input_file, h1, h2]
  · rfl

/-- Evaluation of C8 with the Ebook preset. -/
theorem C8_compress_args_witness :
    compress envToolFails "in.pdf" "out.pdf" .Ebook = run_tool envToolFails Tool.Ghostscript
      ⟨"/bin/gs", ["-sDEVICE=pdfwrite", "-dCompatibilityLevel=1.4",
            "-dPDFSETTINGS=" ++ CompressPreset.Ebook.as_gs_setting, "-dNOPAUSE", "-dBATCH",
            "-dSAFER", "-sOutputFile=" ++ "out.pdf", "in.pdf"]⟩ ∧
    "-dPDFSETTINGS=" ++ CompressPreset.Ebook.as_gs_setting = "-dPDFSETTINGS=/ebook" :=
  C8_compress_args envToolFails "in.pdf" "out.pdf" "/bin/gs" .Ebook rfl rfl

/-- C9: for a parseable document within the page-count bound, info builds
the metadata from the entries of the resolved Info dictionary through the
fixed coercion table (string and name to lossy UTF-8 text, integer and
real to decimal text, boolean to the words true and false), drops entries
of any other kind without error, and yields empty metadata rather than an
error when the Info entry is absent, is not a reference, dangles, or does
not resolve to a dictionary. -/
theorem C9_info_metadata_coercion :
    (∀ env path doc obj id o d, env.fileExists path = true →
      env.load path = .ok doc → doc.pageCount < 4294967296 →
      dict_get doc.trailer infoKey = some obj → as_reference obj = some id →
      objects_get doc.objects id = some o → as_dict o = some d →
      info env path = .ok ⟨doc.pageCount, collect_metadata [] d⟩) ∧
    (∀ env path doc, env.fileExists path = true →
      env.load path = .ok doc → doc.pageCount < 4294967296 →
      dict_get doc.trailer infoKey = none →
      info env path = .ok ⟨doc.pageCount, []⟩) ∧
    (∀ env path doc obj, env.fileExists path = true →
      env.load path = .ok doc → doc.pageCount < 4294967296 →
      dict_get doc.trailer infoKey = some obj → as_reference obj = none →
      info env path = .ok ⟨doc.pageCount, []⟩) ∧
    (∀ env path doc obj id, env.fileExists path = true →
      env.load path = .ok doc → doc.pageCount < 4294967296 →
      dict_get doc.trailer infoKey = some obj → as_reference obj = some id →
      objects_get doc.objects id = none →
      info env path = .ok ⟨doc.pageCount, []⟩) ∧
    (∀ env path doc obj id o, env.fileExists path = true →
      env.load path = .ok doc → doc.pageCount < 4294967296 →
      dict_get doc.trailer infoKey = some obj → as_reference obj = some id →
      objects_get doc.objects id = some o → as_dict o = none →
      info env path = .ok ⟨doc.pageCount, []⟩) ∧
    (∀ bytes fmt, pdf_object_to_string (.Strn bytes fmt) = some (from_utf8_lossy bytes)) ∧
    (∀ bytes, pdf_object_to_string (.Name bytes) = some (from_utf8_lossy bytes)) ∧
    (∀ i, pdf_object_to_string (.Integer i) = some (toString i)) ∧
    (∀ s, pdf_object_to_string (.Real s) = some s) ∧
    (pdf_object_to_string (.Boolean true) = some "true" ∧
      pdf_object_to_string (.Boolean false) = some "false") ∧
    (∀ xs, pdf_object_to_string (.Arr xs) = none) ∧
    (∀ d, pdf_object_to_string (.Dict d) = none) ∧
    (pdf_object_to_string .Null = none) ∧
    (∀ d, pdf_object_to_string (.Stream d) = none) ∧
    (∀ id, pdf_object_to_string (.Reference id) = none) ∧
    (∀ v, pdf_object_to_string v = none → ∀ acc k rest,
      collect_metadata acc ((k, v) :: rest) = collect_metadata acc rest) ∧
    (∀ v val, pdf_object_to_string v = some val → ∀ acc k rest,
      collect_metadata acc ((k, v) :: rest) =
        collect_metadata (btree_insert (from_utf8_lossy k) val acc) rest) := by
  refine ⟨?_, ?_, ?_, ?_, ?_, fun _ _ => rfl, fun _ => rfl, fun _ => rfl, fun _ => rfl,
    ⟨rfl, rfl⟩, fun _ => rfl, fun _ => rfl, rfl, fun _ => rfl, fun _ => rfl, ?_, ?_⟩
  · intro env path doc obj id o d h1 h2 hlt hd hr ho hdict
    simp [info, validate_input_file, h1, h2, hlt, hd, hr, ho, hdict]
  · intro env path doc h1 h2 hlt hd
    simp [info, validate_input_file, h1, h2, hlt, hd]
  · intro env path doc obj h1 h2 hlt hd hr
    simp [info, validate_input_file, h1, h2, hlt, hd, hr]
  · intro env path doc obj id h1 h2 hlt hd hr ho
    simp [info, validate_input_file, h1, h2, hlt, hd, hr, ho]
  · intro env path doc obj id o h1 h2 hlt hd hr ho hdict
    simp [info, validate_input_file, h1, h2, hlt, hd, hr, ho, hdict]
  · intro v hv acc k rest
    simp [collect_metadata, hv]
  · intro v val hv acc k rest
    simp [collect_metadata, hv]

/-- Evaluation of C9 on concrete documents: a resolvable Info dictionary
with a string, a boolean and a dropped array entry; the four degenerate
Info shapes all giving empty metadata; and the coercion table on sample
objects. -/
theorem C9_info_metadata_coercion_witness :
    info (envWithDoc docWithInfo) "x.pdf" = .ok ⟨3, collect_metadata []
      [([0x54], .Strn [0x41] .Literal), ([0x42], .Boolean true), ([0x43], .Arr [])]⟩ ∧
    info (envWithDoc docNoInfo) "x.pdf" = .ok ⟨1, []⟩ ∧
    info (envWithDoc docInfoNotRef) "x.pdf" = .ok ⟨1, []⟩ ∧
    info (envWithDoc docInfoDangling) "x.pdf" = .ok ⟨1, []⟩ ∧
    info (envWithDoc docInfoNotDict) "x.pdf" = .ok ⟨1, []⟩ ∧
    pdf_object_to_string (.Strn [0x41] .Literal) = some (from_utf8_lossy [0x41]) ∧
    pdf_object_to_string (.Name [0x58]) = some (from_utf8_lossy [0x58]) ∧
    pdf_object_to_string (.Integer (-7)) = some (toString (-7 : Int)) ∧
    pdf_object_to_string (.Real "1.5") = some "1.5" ∧
    pdf_object_to_string (.Boolean true) = some "true" ∧
    pdf_object_to_string (.Boolean false) = some "false" ∧
    pdf_object_to_string (.Arr []) = none ∧
    collect_metadata [] [([0x43], .Arr [])] = collect_metadata [] [] ∧
    collect_metadata [] [([0x54], .Strn [0x41] .Literal)] =
      collect_metadata (btree_insert (from_utf8_lossy [0x54]) (from_utf8_lossy [0x41]) [])
        [] :=
  ⟨C9_info_metadata_coercion.1 (envWithDoc docWithInfo) "x.pdf" docWithInfo
      (.Reference (1, 0)) (1, 0)
      (.Dict [([0x54], .Strn [0x41] .Literal), ([0x42], .Boolean true), ([0x43], .Arr [])])
      [([0x54], .Strn [0x41] .Literal), ([0x42], .Boolean true), ([0x43], .Arr [])]
      rfl rfl (by decide) rfl rfl rfl rfl,
   C9_info_metadata_coercion.2.1 (envWithDoc docNoInfo) "x.pdf" docNoInfo
      rfl rfl (by decide) rfl,
   C9_info_metadata_coercion.2.2.1 (envWithDoc docInfoNotRef) "x.pdf" docInfoNotRef
      (.Integer 5) rfl rfl (by decide) rfl rfl,
   C9_info_metadata_coercion.2.2.2.1 (envWithDoc docInfoDangling) "x.pdf" docInfoDangling
      (.Reference (9, 0)) (9, 0) rfl rfl (by decide) rfl rfl rfl,
   C9_info_metadata_coercion.2.2.2.2.1 (envWithDoc docInfoNotDict) "x.pdf" docInfoNotDict
      (.Reference (1, 0)) (1, 0) (.Integer 3) rfl rfl (by decide) rfl rfl rfl rfl,
   C9_info_metadata_coercion.2.2.2.2.2.1 [0x41] .Literal,
   C9_info_metadata_coercion.2.2.2.2.2.2.1 [0x58],
   C9_info_metadata_coercion.2.2.2.2.2.2.2.1 (-7),
   C9_info_metadata_coercion.2.2.2.2.2.2.2.2.1 "1.5",
   C9_info_metadata_coercion.2.2.2.2.2.2.2.2.2.1.1,
   C9_info_metadata_coercion.2.2.2.2.2.2.2.2.2.1.2,
   C9_info_metadata_coercion.2.2.2.2.2.2.2.2.2.2.1 [],
   C9_info_metadata_coercion.2.2.2.2.2.2.2.2.2.2.2.2.2.2.2.1 (.Arr []) rfl [] [0x43] [],
   C9_info_metadata_coercion.2.2.2.2.2.2.2.2.2.2.2.2.2.2.2.2 (.Strn [0x41] .Literal)
      (from_utf8_lossy [0x41]) rfl [] [0x54] []⟩

/-- C10: a parseable document whose page count does not fit in a u32 makes
info fail with InvalidArgument and the page count overflow message, not
with PdfInfo data and not with a parse error. -/
theorem C10_info_page_count_overflow (env : Env) (path : String) (doc : Document)
    (h1 : env.fileExists path = true) (h2 : env.load path = .ok doc)
    (h3 : 4294967296 ≤ doc.pageCount) :
    info env path = .error (.InvalidArgument "page count overflow") := by
  have hn : ¬doc.pageCount < 4294967296 := by omega
  simp [info, validate_input_file, h1, h2, hn]

/-- Evaluation of C10 on a document with two to the thirty-second pages. -/
theorem C10_info_page_count_overflow_witness :
    info (envWithDoc docHugePageCount) "x.pdf" =
      .error (.InvalidArgument "page count overflow") :=
  C10_info_page_count_overflow (envWithDoc docHugePageCount) "x.pdf" docHugePageCount
    rfl rfl (by decide)

end Pdfcore
